import Mathlib

/-!
# Verification of `pandora/bots/legacy.py`

A shallow embedding of the interactive chat client in
`src/pandora/bots/legacy.py`, together with proofs about its behaviour:
the streamed-reply reconciliation (`ChatBot.__print_reply`), command
dispatch (`__process_command`, `__get_input`, `__talk_loop`), the
conversation selector (`__choice_conversation`, `__del_conversation`),
title setting (`__set_conversation_title`), conversation loading
(`__load_conversation`), and the `State` / `ChatPrompt` data model.

Python strings are modelled by Lean `String` (both are sequences of code
points; Python `s[p:]` corresponds to `String.drop s p`).  Python `None`
is modelled by `Option.none`.  Python truthiness of an optional string
(`if not x:`) is false exactly when the value is absent or the empty
string; this is captured by `strTruthy` below.
-/

/-- Python truthiness of an optional string value: `None` and `""` are
falsy, every other string is truthy.  Used wherever the source tests a
string-valued field with `if x:` / `if not x:`. -/
def strTruthy : Option String → Bool
  | none => false
  | some s => s ≠ ""

/-! ## `ChatPrompt` and `State` (value model)

`ChatPrompt.__init__` stores a prompt text and two ids, generating a
fresh id for `parent_id` / `message_id` when the supplied value is falsy
(`parent_id if parent_id else self.gen_message_id()`).  Fields are
plain attributes, mutated in place by callers; here each mutation is
modelled as a functional update. -/

structure ChatPrompt where
  prompt : Option String
  parent_id : Option String
  message_id : Option String
deriving Repr, DecidableEq

/-- Models `ChatPrompt.__init__(prompt, parent_id, message_id)`; `gen1`, `gen2`
stand for the two `uuid.uuid4()` strings `gen_message_id` would return
for the `parent_id` and `message_id` defaults respectively. -/
def mkChatPrompt (prompt : Option String) (parent_id message_id : Option String)
    (gen1 gen2 : String) : ChatPrompt :=
  { prompt := prompt
    parent_id := if strTruthy parent_id then parent_id else some gen1
    message_id := if strTruthy message_id then message_id else some gen2 }

/-- Models `State`: title, conversation id, model slug and the two rolling
prompt records (`user_prompt`, `chatgpt_prompt`). -/
structure State where
  title : Option String
  conversation_id : Option String
  model_slug : Option String
  user_prompt : ChatPrompt
  chatgpt_prompt : ChatPrompt
deriving Repr, DecidableEq

/-! ## `State.__init__` default-argument semantics (identity model)

In Python, the default expressions `user_prompt=ChatPrompt()` and
`chatgpt_prompt=ChatPrompt()` in `State.__init__` are evaluated ONCE,
when the `class State` body is executed; every later call of
`State(...)` that omits these arguments receives the very same two
`ChatPrompt` objects.  To reason about object identity we give prompt
records heap addresses: the two class-definition-time defaults live at
fixed addresses, and a `State` constructed without explicit prompts
stores those same addresses. -/

/-- Address of the single `ChatPrompt()` object created for the
`user_prompt` default when `class State` is defined. -/
def defaultUserPromptAddr : Nat := 0

/-- Address of the single `ChatPrompt()` object created for the
`chatgpt_prompt` default when `class State` is defined. -/
def defaultChatgptPromptAddr : Nat := 1

/-- The prompt-record references held by a `State`: which heap object
its `user_prompt` and `chatgpt_prompt` attributes point at. -/
structure StateRefs where
  user_prompt_addr : Nat
  chatgpt_prompt_addr : Nat
deriving Repr, DecidableEq

/-- Models the binding `State.__init__` performs of the two prompt attributes: an omitted
argument (modelled as `none`) binds the shared class-definition-time
default object's address; an explicit argument binds that object's own
address. -/
def stateInitRefs (user_prompt chatgpt_prompt : Option Nat) : StateRefs :=
  { user_prompt_addr := user_prompt.getD defaultUserPromptAddr
    chatgpt_prompt_addr := chatgpt_prompt.getD defaultChatgptPromptAddr }

/-- A heap of prompt-record objects, indexed by address. -/
def PromptHeap : Type := Nat → ChatPrompt

/-- In-place mutation of the prompt record at `addr` (as by
`prompt.prompt = ...` etc. through one session's reference). -/
def writePrompt (h : PromptHeap) (addr : Nat) (v : ChatPrompt) : PromptHeap :=
  fun a => if a = addr then v else h a

/-! ## Streamed-reply reconciliation (`ChatBot.__print_reply`)

Each event of the streamed generator carries an `error`, an optional
`message` (whose `content.parts[0]` is the full accumulated text so
far, here `part0`), a `conversation_id`, and inside the message an
`end_turn` flag and the assistant node `id`. -/

structure ReplyMessage where
  /-- Field `message['content']['parts'][0]`: the full accumulated text. -/
  part0 : String
  /-- Field `message['end_turn']`. -/
  end_turn : Bool
  /-- Field `message['id']`: the assistant node id. -/
  id : String
deriving Repr, DecidableEq

structure ReplyEvent where
  /-- Field `result['error']` (a string payload, or absent). -/
  error : Option String
  /-- Field `result['message']`. -/
  message : Option ReplyMessage
  /-- Field `result['conversation_id']`. -/
  conversation_id : Option String
deriving Repr, DecidableEq

/-- One iteration of the `async for` loop in `__print_reply`, acting on
the session state and the running cursor `p` (characters already
emitted).  `if result['error']:` raises `Exception(result['error'])`
when the error is truthy; a falsy `message` raises
`'miss message property.'`; otherwise the newly appended suffix
`parts[0][p:]` is computed, `p` advances by its length, and the state's
`conversation_id` and `chatgpt_prompt` fields are overwritten.  Returns
the updated state, the new cursor and the emitted text. -/
def printReplyStep (st : State) (p : Nat) (e : ReplyEvent) :
    Except String (State × Nat × String) :=
  if strTruthy e.error then
    .error (e.error.getD "")
  else
    match e.message with
    | none => .error "miss message property."
    | some message =>
      let text := message.part0.drop p
      let p' := p + text.length
      let st' := { st with
        conversation_id := e.conversation_id
        chatgpt_prompt := { prompt := some message.part0
                            parent_id := st.user_prompt.message_id
                            message_id := some message.id } }
      .ok (st', p', text)

/-- The whole `async for` loop of `__print_reply`, consuming the event
sequence in order and collecting the emitted suffixes.  An exception
aborts the remaining events. -/
def printReplyGo (st : State) (p : Nat) :
    List ReplyEvent → Except String (State × Nat × List String)
  | [] => .ok (st, p, [])
  | e :: rest =>
    match printReplyStep st p e with
    | .error err => .error err
    | .ok (st', p', text) =>
      match printReplyGo st' p' rest with
      | .error err => .error err
      | .ok (stf, pf, texts) => .ok (stf, pf, text :: texts)

/-- Models `__print_reply` run from cursor `p = 0`. -/
def printReply (st : State) (events : List ReplyEvent) :
    Except String (State × Nat × List String) :=
  printReplyGo st 0 events

/-! ## Input framing (`ChatBot.__get_input`)

`__get_input` reads console lines one at a time: a blank line ends the
unit (returning the newline-join of the accumulated lines), a line whose
first character is `/` is returned alone immediately (discarding the
accumulated lines), and any other line is appended to the accumulator.
The console is modelled as the list of lines `input()` would return in
order; an exhausted list (where `input()` would raise `EOFError`) gives
`none`. -/

def getInputGo : List String → List String → Option String
  | [], _ => none
  | line :: rest, lines =>
    if line = "" then some (String.intercalate "\n" lines)
    else if line.front = '/' then some line
    else getInputGo rest (lines ++ [line])

/-- Models `ChatBot.__get_input()` on a console delivering `input` lines. -/
def getInput (input : List String) : Option String :=
  getInputGo input []

/-! ## Command dispatch (`__process_command`, `__talk_loop`) -/

/-- The action `__process_command` takes after normalising its argument
with `command.strip().lower()`. -/
inductive CommandAction where
  /-- Aliases `/quit`, `/exit`, `/bye`: `raise KeyboardInterrupt`. -/
  | quit
  /-- Aliases `/del`, `/delete`, `/remove`: `__del_conversation(state)`. -/
  | delConversation
  /-- Aliases `/title`, `/set_title`, `/set-title`: `__set_conversation_title(state)`. -/
  | setTitle
  /-- Alias `/select`: `run()`. -/
  | select
  /-- Aliases `/refresh`, `/reload`: `__load_conversation(state.conversation_id)`. -/
  | refresh
  /-- Alias `/new`: `__new_conversation()` then `__talk_loop()`. -/
  | newConversation
  /-- Aliases `/regen`, `/regenerate`: `__regenerate_reply(state)`. -/
  | regenerate
  /-- Alias `/token`: `__print_access_token()`. -/
  | token
  /-- Aliases `/cls`, `/clear`: `__clear_screen()`. -/
  | clearScreen
  /-- Aliases `/ver`, `/version`: `__print_version()`. -/
  | version
  /-- anything else: `__print_usage()`. -/
  | usage
deriving Repr, DecidableEq

/-- Python `str.strip()`: remove leading and trailing whitespace
characters. -/
def strStrip (s : String) : String :=
  ⟨((s.data.dropWhile Char.isWhitespace).reverse.dropWhile
      Char.isWhitespace).reverse⟩

/-- Python `str.lower()`: lowercase the string character by
character. -/
def strLower (s : String) : String :=
  ⟨s.data.map Char.toLower⟩

/-- Models `ChatBot.__process_command`: strip surrounding whitespace, lowercase
(`command.strip().lower()`), then exact-match against the alias table. -/
def processCommand (command : String) : CommandAction :=
  let c := strLower (strStrip command)
  if c = "/quit" ∨ c = "/exit" ∨ c = "/bye" then .quit
  else if c = "/del" ∨ c = "/delete" ∨ c = "/remove" then .delConversation
  else if c = "/title" ∨ c = "/set_title" ∨ c = "/set-title" then .setTitle
  else if c = "/select" then .select
  else if c = "/refresh" ∨ c = "/reload" then .refresh
  else if c = "/new" then .newConversation
  else if c = "/regen" ∨ c = "/regenerate" then .regenerate
  else if c = "/token" then .token
  else if c = "/cls" ∨ c = "/clear" then .clearScreen
  else if c = "/ver" ∨ c = "/version" then .version
  else .usage

/-- What one iteration of `__talk_loop` does with a logical input unit:
an empty unit is skipped (`continue`), a unit whose first character is
`/` goes to `__process_command`, and anything else is sent as a message
(`__talk(prompt)`). -/
inductive LoopAction where
  | skip
  | command (act : CommandAction)
  | message (text : String)
deriving Repr, DecidableEq

/-- The classification performed by one iteration of
`ChatBot.__talk_loop` on the unit returned by `__get_input`. -/
def talkLoopAction (prompt : String) : LoopAction :=
  if prompt = "" then .skip
  else if prompt.front = '/' then .command (processCommand prompt)
  else .message prompt

/-! ## Title setting (`ChatBot.__set_conversation_title`) -/

/-- The console outcome of `__set_conversation_title`. -/
inductive TitleOutcome where
  /-- Message `#### Conversation has not been created.` -/
  | notCreated
  /-- Message `#### Title too long.` -/
  | tooLong
  /-- Message `#### Set title success.` -/
  | success
  /-- Message `#### Set title failed.` -/
  | failed
deriving Repr, DecidableEq

/-- Models `ChatBot.__set_conversation_title(state)` once the user has typed
`new_title` at the prompt.  `remoteOk` is the boolean returned by the
delegated `chatgpt.set_conversation_title` call.  Returns the updated
state, whether the delegated call was made, and the console outcome. -/
def setConversationTitle (state : State) (new_title : String) (remoteOk : Bool) :
    State × Bool × TitleOutcome :=
  if ¬ strTruthy state.conversation_id then
    (state, false, .notCreated)
  else if new_title.length > 64 then
    (state, false, .tooLong)
  else if remoteOk then
    ({ state with title := some new_title }, true, .success)
  else
    (state, true, .failed)

/-! ## Conversation deletion (`ChatBot.__del_conversation`) -/

/-- The paths through `__del_conversation`. -/
inductive DelOutcome where
  /-- falsy `state.conversation_id`: error message, return. -/
  | notCreated
  /-- the user answered no to `Confirm.ask('Are you sure?')`: return. -/
  | declined
  /-- delegated `del_conversation` returned truth: `self.run()` is
  invoked, restarting the controller from conversation selection. -/
  | deletedAndRunRestarted
  /-- delegated `del_conversation` returned falsity:
  `#### Delete conversation failed.` -/
  | failed
deriving Repr, DecidableEq

/-- Models `ChatBot.__del_conversation(state)` with the user's confirmation
answer `confirm` and the delegated call's result `remoteOk`. -/
def delConversation (state : State) (confirm : Bool) (remoteOk : Bool) : DelOutcome :=
  if ¬ strTruthy state.conversation_id then .notCreated
  else if ¬ confirm then .declined
  else if remoteOk then .deletedAndRunRestarted
  else .failed

/-! ## Conversation selector (`ChatBot.__choice_conversation`) -/

/-- One page of `chatgpt.list_conversations(offset, limit)`:
`{total, offset, limit, items}` where each item is `(id, title)`. -/
structure ConversationsPage where
  total : Nat
  offset : Nat
  limit : Nat
  items : List (String × String)
deriving Repr, DecidableEq

/-- The offset argument `__choice_conversation` passes to
`list_conversations` for a 1-based `page`: `(page - 1) * page_size`. -/
def listOffset (page page_size : Nat) : Nat :=
  (page - 1) * page_size

/-- Flag `first_page = 0 == conversations['offset']`. -/
def firstPage (c : ConversationsPage) : Bool :=
  c.offset = 0

/-- Flag `last_page = (offset + limit) >= total`. -/
def lastPage (c : ConversationsPage) : Bool :=
  c.offset + c.limit ≥ c.total

/-- The per-item choices appended inside the `for idx, item in
enumerate(items)` loop: for each 1-based `number`, the strings
`number`, `'t' + number`, `'d' + number`, in order. -/
def itemChoices (n : Nat) : List String :=
  (List.range n).flatMap fun idx =>
    let number := toString (idx + 1)
    [number, "t" ++ number, "d" ++ number]

/-- The full valid-choice list built by `__choice_conversation`:
`['c']`, the per-item choices, then `'n'` only when not on the last
page and `'p'` only when not on the first page. -/
def choiceList (c : ConversationsPage) : List String :=
  ["c"] ++ itemChoices c.items.length
    ++ (if ¬ lastPage c then ["n"] else [])
    ++ (if ¬ firstPage c then ["p"] else [])

/-- How the `while True` prompt loop of `__choice_conversation` reacts
to one entered choice. -/
inductive SelectorStep where
  /-- Choice `'c'`: `return None` (start a new chat). -/
  | noSelection
  /-- Choices `'n'` / `'p'`: `return self.__choice_conversation(page ± 1, page_size)`. -/
  | gotoPage (page : Nat)
  /-- Choice `'t?'`: `__set_conversation_title(State(conversation_id=...))` for
  the indexed item, then
  `return self.__choice_conversation(page, page_size)` — the same page
  is fetched and displayed again. -/
  | renameThenRedisplay (conversationId : String)
  /-- Choice `'d?'`: `__del_conversation(State(conversation_id=...))` for the
  indexed item, then `continue` — the loop re-asks on the page already
  displayed.  `outcome` records which path `__del_conversation` took
  (on `deletedAndRunRestarted` the whole controller restarted via
  `self.run()` before the `continue` is reached). -/
  | deleteThenReprompt (conversationId : String) (outcome : DelOutcome)
  /-- a bare index: `return items[int(choice) - 1]`. -/
  | selected (item : String × String)
deriving Repr, DecidableEq

/-- Python `int()` on a decimal-digit string, as used for
`int(choice[1:])` and `int(choice)` (the prompt's choice validation
guarantees the argument is one of the offered numeric strings). -/
def strToNat (s : String) : Nat :=
  s.data.foldl (fun n c => n * 10 + (c.toNat - Char.toNat '0')) 0

/-- One iteration of the choice loop in `__choice_conversation`, given
the current `page` number, the fetched page `c`, the entered `choice`
(guaranteed by `Prompt.ask(choices=...)` to be a member of
`choiceList c`), and — for the `'d?'` branch — the confirmation answer
and delegated delete result. -/
def choiceStep (page : Nat) (c : ConversationsPage) (choice : String)
    (confirm remoteOk : Bool) : SelectorStep :=
  if choice = "c" then .noSelection
  else if choice = "n" then .gotoPage (page + 1)
  else if choice = "p" then .gotoPage (page - 1)
  else if choice.front = 't' then
    let idx := strToNat (choice.drop 1)
    let cid := ((c.items.getD (idx - 1) ("", "")).1)
    .renameThenRedisplay cid
  else if choice.front = 'd' then
    let idx := strToNat (choice.drop 1)
    let cid := ((c.items.getD (idx - 1) ("", "")).1)
    let st : State :=
      { title := none, conversation_id := some cid, model_slug := none
        user_prompt := ⟨none, none, none⟩, chatgpt_prompt := ⟨none, none, none⟩ }
    .deleteThenReprompt cid (delConversation st confirm remoteOk)
  else
    .selected (c.items.getD (strToNat choice - 1) ("", ""))

/-! ## Conversation loading (`ChatBot.__load_conversation`) -/

/-- A message inside a conversation node:
`{author|role, content: {parts: [text]}, metadata: {model_slug?}}`.
`role` is `message['author']['role']` when the `author` key is present,
else `message['role']`; the two spellings carry the same information,
so a single field models the role actually read.  `model_slug` is
`message['metadata']['model_slug']` when that key is present. -/
structure NodeMessage where
  role : String
  part0 : String
  model_slug : Option String
deriving Repr, DecidableEq

/-- One node of `result['mapping']`: `{parent, id, message}`. -/
structure ConvNode where
  parent : Option String
  id : String
  message : NodeMessage
deriving Repr, DecidableEq

/-- The delegated `chatgpt.get_conversation(id)` result:
`{title, current_node, mapping}`, the mapping as an association list. -/
structure ConvResult where
  title : String
  current_node : String
  mapping : List (String × ConvNode)
deriving Repr, DecidableEq

/-- Python dict lookup `result['mapping'][current_node_id]` (first
binding of the key; a missing key raises `KeyError`, modelled `none`). -/
def mappingLookup (mapping : List (String × ConvNode)) (key : String) :
    Option ConvNode :=
  (mapping.find? (fun kv => kv.1 = key)).map (·.2)

/-- The parent-chain walk of `__load_conversation`: starting from
`current_node`, repeatedly `nodes.insert(0, node)` and step to
`node['parent']` while the parent is truthy; stop (without recording
the node) at the first node with a falsy parent.  A missing node
(`KeyError`) or a chain longer than `fuel` (in the source, a cycle
would loop forever) gives `none`. -/
def walkNodes (mapping : List (String × ConvNode)) :
    Nat → String → List ConvNode → Option (List ConvNode)
  | 0, _, _ => none
  | fuel + 1, current, nodes =>
    match mappingLookup mapping current with
    | none => none
    | some node =>
      if ¬ strTruthy node.parent then some nodes
      else walkNodes mapping fuel (node.parent.getD "") (node :: nodes)

/-- The body of the replay loop `for node in nodes:` — updates
`state.model_slug` when the message metadata carries `model_slug`, then
overwrites the fields of `state.user_prompt` (role `user`) or
`state.chatgpt_prompt` (any other role) with the node's text, parent
and id. -/
def replayNode (st : State) (node : ConvNode) : State :=
  let st :=
    match node.message.model_slug with
    | some s => { st with model_slug := some s }
    | none => st
  let record : ChatPrompt :=
    { prompt := some node.message.part0
      parent_id := node.parent
      message_id := some node.id }
  if node.message.role = "user" then
    { st with user_prompt := record }
  else
    { st with chatgpt_prompt := record }

/-- The replay loop over the reconstructed node list, in order. -/
def replayNodes (st : State) (nodes : List ConvNode) : State :=
  nodes.foldl replayNode st

/-- Result of `__load_conversation`. -/
inductive LoadResult where
  /-- falsy `conversation_id`: the method returns at once, leaving
  `self.state` untouched. -/
  | skipped
  /-- a node missing from the mapping (`KeyError`) or an unterminated
  parent chain. -/
  | malformed
  | loaded (st : State)
deriving Repr, DecidableEq

/-- Models `ChatBot.__load_conversation(conversation_id)`.  The fresh
`State(conversation_id=conversation_id)` leaves the two prompt
arguments to their defaults — the shared class-definition-time
`ChatPrompt` objects, whose current field values are passed here as
`u0` and `a0`.  After the walk the state's title is set from the
result and every reconstructed node is replayed in order. -/
def loadConversation (u0 a0 : ChatPrompt) (conversation_id : Option String)
    (result : ConvResult) (fuel : Nat) : LoadResult :=
  if ¬ strTruthy conversation_id then .skipped
  else
    let st0 : State :=
      { title := none, conversation_id := conversation_id, model_slug := none
        user_prompt := u0, chatgpt_prompt := a0 }
    match walkNodes result.mapping fuel result.current_node [] with
    | none => .malformed
    | some nodes =>
      let st1 := { st0 with title := some result.title }
      .loaded (replayNodes st1 nodes)

/-! ## Theorems -/

/-- A sample session state used by concrete instantiations. -/
def sampleState : State :=
  { title := none, conversation_id := none, model_slug := none
    user_prompt := ⟨some "hi", some "root-id", some "user-msg-id"⟩
    chatgpt_prompt := ⟨none, some "p0", some "m0"⟩ }

/-- Inversion of one successful `__print_reply` iteration: the event's
error was falsy, its message present, the emitted text is
`parts[0][p:]` and the cursor advanced by its length; moreover the
state update is exactly the overwrite performed by the loop body. -/
theorem printReplyStep_ok_inv (st : State) (p : Nat) (e : ReplyEvent)
    (st' : State) (p' : Nat) (text : String)
    (h : printReplyStep st p e = .ok (st', p', text)) :
    ∃ m, e.message = some m ∧ strTruthy e.error = false ∧
      text = m.part0.drop p ∧ p' = p + text.length ∧
      st' = { st with
        conversation_id := e.conversation_id
        chatgpt_prompt := { prompt := some m.part0
                            parent_id := st.user_prompt.message_id
                            message_id := some m.id } } := by
  unfold printReplyStep at h
  by_cases he : strTruthy e.error
  · rw [if_pos he] at h
    exact absurd h (by simp)
  · rw [if_neg he] at h
    cases hm : e.message with
    | none => rw [hm] at h; exact absurd h (by simp)
    | some m =>
      rw [hm] at h
      simp only [Except.ok.injEq, Prod.mk.injEq] at h
      obtain ⟨hst, hp, ht⟩ := h
      subst ht
      exact ⟨m, rfl, by simpa using he, rfl, by omega, hst.symm⟩

/-- C1: streamed-reply reconciliation emits exactly the newly appended
suffix of the cumulative content.  (1) Every successfully processed
event emits `parts[0][p:]` and advances the cursor `p` by the emitted
length; (2) across any event sequence the final cursor equals the
starting cursor plus the total number of characters emitted; (3) for
two events carrying `"Hello"` then `"Hello, world"`, the second event
emits exactly `", world"`. -/
theorem reconciliation_emits_new_suffix :
    (∀ (st : State) (p : Nat) (e : ReplyEvent) (m : ReplyMessage)
        (st' : State) (p' : Nat) (text : String),
      e.message = some m →
      printReplyStep st p e = .ok (st', p', text) →
      text = m.part0.drop p ∧ p' = p + text.length) ∧
    (∀ (st : State) (p : Nat) (events : List ReplyEvent)
        (st' : State) (p' : Nat) (texts : List String),
      printReplyGo st p events = .ok (st', p', texts) →
      p' = p + (texts.map String.length).sum) ∧
    (∀ st : State, ∃ r,
      printReply st
        [⟨none, some ⟨"Hello", false, "n1"⟩, some "c1"⟩,
         ⟨none, some ⟨"Hello, world", true, "n1"⟩, some "c1"⟩] = .ok r ∧
      r.2.2 = ["Hello", ", world"]) := by
  refine ⟨?hstep, ?hcursor, ?hex⟩
  · intro st p e m st' p' text hm h
    obtain ⟨m', hm', -, ht, hp, -⟩ := printReplyStep_ok_inv st p e st' p' text h
    rw [hm] at hm'
    cases hm'
    exact ⟨ht, hp⟩
  · intro st p events
    induction events generalizing st p with
    | nil =>
      intro st' p' texts h
      simp only [printReplyGo, Except.ok.injEq, Prod.mk.injEq] at h
      obtain ⟨-, hp, ht⟩ := h
      subst ht
      simpa using hp.symm
    | cons e rest ih =>
      intro st' p' texts h
      unfold printReplyGo at h
      cases hstep : printReplyStep st p e with
      | error err => rw [hstep] at h; exact absurd h (by simp)
      | ok r =>
        obtain ⟨st1, p1, text⟩ := r
        rw [hstep] at h
        dsimp only at h
        cases hrest : printReplyGo st1 p1 rest with
        | error err => rw [hrest] at h; exact absurd h (by simp)
        | ok r2 =>
          obtain ⟨st2, p2, texts2⟩ := r2
          rw [hrest] at h
          dsimp only at h
          simp only [Except.ok.injEq, Prod.mk.injEq] at h
          obtain ⟨-, hp, ht⟩ := h
          subst ht
          obtain ⟨-, -, -, -, h1, -⟩ :=
            printReplyStep_ok_inv st p e st1 p1 text hstep
          have h2 := ih st1 p1 st2 p2 texts2 hrest
          subst hp
          simp only [List.map_cons, List.sum_cons]
          omega
  · intro st
    exact ⟨_, rfl, rfl⟩

/-- Witness for C1 at a concrete event: with cursor `p = 5` and an
event carrying the cumulative content `"Hello, world"`, the emitted
text is exactly `", world"` and the cursor advances to `12`. -/
theorem reconciliation_emits_new_suffix_witness :
    (", world" : String) = ("Hello, world" : String).drop 5 ∧
    12 = 5 + (", world" : String).length :=
  reconciliation_emits_new_suffix.1 sampleState 5
    ⟨none, some ⟨"Hello, world", true, "n1"⟩, some "c1"⟩
    ⟨"Hello, world", true, "n1"⟩
    { sampleState with
        conversation_id := some "c1"
        chatgpt_prompt := { prompt := some "Hello, world"
                            parent_id := sampleState.user_prompt.message_id
                            message_id := some "n1" } }
    12 ", world" rfl rfl

/-- C2 (evaluation of the code at the failing input): two `State`
objects constructed without explicit prompt records — exactly what
`State(conversation_id=...)` in `__load_conversation` and
`__choice_conversation` do — hold references to the same two
`ChatPrompt` objects, the ones created once when `class State` was
defined.  Consequently an in-place write through the first session's
user record is observed through the second session's user record:
the sessions alias, contradicting the required freshness. -/
theorem state_default_prompt_records_shared (h : PromptHeap) (v : ChatPrompt) :
    (stateInitRefs none none).user_prompt_addr
        = (stateInitRefs none none).user_prompt_addr ∧
    (stateInitRefs none none).chatgpt_prompt_addr
        = (stateInitRefs none none).chatgpt_prompt_addr ∧
    writePrompt h (stateInitRefs none none).user_prompt_addr v
        (stateInitRefs none none).user_prompt_addr = v := by
  refine ⟨rfl, rfl, ?_⟩
  simp [writePrompt, stateInitRefs]

/-- C3 counterexample: the input unit `"  /QUIT  "` — the command
alias `/quit` up to case and surrounding whitespace — is never
dispatched as a command.  `__get_input` accumulates the line (its
first character is a space, not `/`) and returns it as the unit after
the following blank line, and `__talk_loop` then sends the unit as a
chat message because its first character is not `/`; no exit signal is
raised. -/
theorem leading_whitespace_command_is_message :
    getInput ["  /QUIT  ", ""] = some "  /QUIT  " ∧
    talkLoopAction "  /QUIT  " = .message "  /QUIT  " ∧
    LoopAction.message "  /QUIT  " ≠ .command .quit := by
  refine ⟨rfl, ?_, by simp⟩
  unfold talkLoopAction
  rw [if_neg (by decide), if_neg (by decide)]

/-- C3 (amended): command dispatch trims surrounding whitespace and
lowercases only after the unit has been classified as a command, which
requires its first character to be `/`.  For every unit whose first
character is `/` and whose stripped, lowercased form equals a quit
alias, the user-requested-exit signal is raised. -/
theorem command_dispatch_case_insensitive (prompt : String)
    (hne : prompt ≠ "") (hslash : prompt.front = '/')
    (halias : strLower (strStrip prompt) = "/quit" ∨
      strLower (strStrip prompt) = "/exit" ∨
      strLower (strStrip prompt) = "/bye") :
    talkLoopAction prompt = .command .quit := by
  unfold talkLoopAction
  rw [if_neg hne, if_pos hslash]
  unfold processCommand
  rcases halias with h | h | h <;> simp [h]

/-- Witness for the amended C3: the unit `"/QUIT  "` (first character
`/`, quit alias up to case and trailing whitespace) raises the exit
signal. -/
theorem command_dispatch_case_insensitive_witness :
    talkLoopAction "/QUIT  " = .command .quit :=
  command_dispatch_case_insensitive "/QUIT  " (by decide) (by decide)
    (Or.inl (by decide))

/-- Every character produced by `Nat.toDigitsCore 10` is a decimal
digit (given the accumulator already holds only digits). -/
theorem toDigitsCore_isDigit (fuel : Nat) :
    ∀ (n : Nat) (acc : List Char), (∀ c ∈ acc, c.isDigit = true) →
    ∀ c ∈ Nat.toDigitsCore 10 fuel n acc, c.isDigit = true := by
  induction fuel with
  | zero => intro n acc hacc; simpa [Nat.toDigitsCore] using hacc
  | succ fuel ih =>
    intro n acc hacc c hc
    have hdig : (Nat.digitChar (n % 10)).isDigit = true := by
      have h10 : n % 10 < 10 := Nat.mod_lt _ (by omega)
      interval_cases h : n % 10 <;> decide
    unfold Nat.toDigitsCore at hc
    dsimp only at hc
    split at hc
    · rcases List.mem_cons.mp hc with h | h
      · simpa [h] using hdig
      · exact hacc c h
    · refine ih (n / 10) (Nat.digitChar (n % 10) :: acc) ?_ c hc
      intro x hx
      rcases List.mem_cons.mp hx with h | h
      · simpa [h] using hdig
      · exact hacc x h

/-- The decimal representation of a natural number never equals a
one-character string whose character is not a digit. -/
theorem repr_ne_nondigit_char (k : Nat) (ch : Char)
    (hch : ch.isDigit = false) : Nat.repr k ≠ String.mk [ch] := by
  intro h
  have hdata : (Nat.repr k).data = [ch] := by rw [h]
  have hmem : ch ∈ Nat.toDigitsCore 10 (k + 1) k [] := by
    have : (Nat.repr k).data = Nat.toDigitsCore 10 (k + 1) k [] := rfl
    rw [this] at hdata
    simp [hdata]
  have := toDigitsCore_isDigit (k + 1) k [] (by simp) ch hmem
  rw [hch] at this
  exact Bool.false_ne_true this

/-- The per-item choices (`<idx>`, `t<idx>`, `d<idx>`) never contain a
one-character string with a non-digit character other than `t` or `d`
followed by nothing — in particular neither `"n"` nor `"p"`. -/
theorem single_nondigit_not_mem_itemChoices (len : Nat) (ch : Char)
    (hch : ch.isDigit = false) (ht : ch ≠ 't') (hd : ch ≠ 'd') :
    String.mk [ch] ∉ itemChoices len := by
  intro h
  simp only [itemChoices, List.mem_flatMap, List.mem_range] at h
  obtain ⟨i, -, hx⟩ := h
  simp only [List.mem_cons, List.not_mem_nil, or_false] at hx
  rcases hx with hx | hx | hx
  · exact repr_ne_nondigit_char (i + 1) ch hch hx.symm
  · have := congrArg String.data hx
    simp only [String.data_append] at this
    have h2 : ch = 't' := by
      have h3 : (String.mk [ch]).data = 't' :: (toString (i + 1)).data := this
      simpa using congrArg (fun l => l.headD ' ') h3
    exact ht h2
  · have := congrArg String.data hx
    simp only [String.data_append] at this
    have h2 : ch = 'd' := by
      have h3 : (String.mk [ch]).data = 'd' :: (toString (i + 1)).data := this
      simpa using congrArg (fun l => l.headD ' ') h3
    exact hd h2

/-- C4: pagination arithmetic of the conversation selector.
`first_page` holds exactly when the response offset is `0`,
`last_page` exactly when `offset + limit >= total`; the `n` (next)
choice is offered exactly when not on the last page and the `p`
(previous) choice exactly when not on the first page.  In particular
with `total = 45` and `page_size = 20`, page 1 (offset `0`) offers no
`p` and page 3 (offset `(3-1)*20 = 40`) offers no `n`, whatever the
page's items are. -/
theorem pagination_controls (c : ConversationsPage) :
    (firstPage c = true ↔ c.offset = 0) ∧
    (lastPage c = true ↔ c.offset + c.limit ≥ c.total) ∧
    (("n" ∈ choiceList c) ↔ ¬ c.offset + c.limit ≥ c.total) ∧
    (("p" ∈ choiceList c) ↔ ¬ c.offset = 0) ∧
    (listOffset 3 20 = 40 ∧
      (∀ items, "p" ∉ choiceList ⟨45, 0, 20, items⟩ ∧
        "n" ∈ choiceList ⟨45, 0, 20, items⟩) ∧
      (∀ items, "n" ∉ choiceList ⟨45, 40, 20, items⟩ ∧
        "p" ∈ choiceList ⟨45, 40, 20, items⟩)) := by
  have hn : ∀ len, "n" ∉ itemChoices len := fun len =>
    single_nondigit_not_mem_itemChoices len 'n' (by decide) (by decide)
      (by decide)
  have hp : ∀ len, "p" ∉ itemChoices len := fun len =>
    single_nondigit_not_mem_itemChoices len 'p' (by decide) (by decide)
      (by decide)
  have hmemn : ∀ c : ConversationsPage,
      ("n" ∈ choiceList c) ↔ ¬ c.offset + c.limit ≥ c.total := by
    intro c
    by_cases hl : lastPage c <;> by_cases hf : firstPage c <;>
      simp_all [choiceList, lastPage, firstPage, hn]
  have hmemp : ∀ c : ConversationsPage,
      ("p" ∈ choiceList c) ↔ ¬ c.offset = 0 := by
    intro c
    by_cases hl : lastPage c <;> by_cases hf : firstPage c <;>
      simp_all [choiceList, lastPage, firstPage, hp]
  refine ⟨by simp [firstPage], by simp [lastPage], hmemn c, hmemp c,
    rfl, ?_, ?_⟩
  · intro items
    constructor
    · rw [hmemp ⟨45, 0, 20, items⟩]; simp
    · rw [hmemn ⟨45, 0, 20, items⟩]; simp
  · intro items
    constructor
    · rw [hmemn ⟨45, 40, 20, items⟩]; simp
    · rw [hmemp ⟨45, 40, 20, items⟩]; simp

/-- Witness instantiation of the C4 pagination theorem at a concrete
listing response (total 45, offset 40, limit 20). -/
theorem pagination_controls_witness :
    ("n" ∈ choiceList ⟨45, 40, 20, [("i1", "t1")]⟩) ↔ ¬ (40 + 20 ≥ 45) :=
  (pagination_controls ⟨45, 40, 20, [("i1", "t1")]⟩).2.2.1

/-- C5 counterexample: in the selector, choosing `d1` on a concrete
page, confirming, with the delegated delete call succeeding, makes
`__del_conversation` invoke `self.run()` — the controller restarts
from conversation selection (page 1) and never re-displays the current
page; the outcome differs from the decline and failure outcomes, which
merely re-prompt on the already displayed page without re-fetching. -/
theorem delete_success_restarts_controller :
    choiceStep 2 ⟨45, 20, 20, [("cid1", "Title 1")]⟩ "d1" true true
      = .deleteThenReprompt "cid1" .deletedAndRunRestarted ∧
    DelOutcome.deletedAndRunRestarted ≠ .declined ∧
    DelOutcome.deletedAndRunRestarted ≠ .failed ∧
    SelectorStep.deleteThenReprompt "cid1" .deletedAndRunRestarted
      ≠ .renameThenRedisplay "cid1" := by
  refine ⟨?_, by simp, by simp, by simp⟩
  decide

/-- C5 (amended): choosing `d<idx>` runs `__del_conversation` on a
fresh `State` holding the indexed item's id and then continues the
prompt loop on the already displayed page.  With a truthy id the user
is asked for confirmation; on decline or on delete failure the
selector just re-prompts (the picker stays on the same page, without
re-fetching); on confirmed success `self.run()` restarts the whole
controller from conversation selection. -/
theorem delete_choice_flow (page : Nat) (c : ConversationsPage)
    (choice : String) (confirm remoteOk : Bool) (cid title : String)
    (hfront : choice.front = 'd')
    (hitem : c.items.getD (strToNat (choice.drop 1) - 1) ("", "") = (cid, title))
    (hcid : cid ≠ "") :
    choiceStep page c choice confirm remoteOk =
      .deleteThenReprompt cid
        (if ¬ confirm then .declined
         else if remoteOk then .deletedAndRunRestarted
         else .failed) := by
  have hc : choice ≠ "c" := fun h => by rw [h] at hfront; exact absurd hfront (by decide)
  have hn : choice ≠ "n" := fun h => by rw [h] at hfront; exact absurd hfront (by decide)
  have hp : choice ≠ "p" := fun h => by rw [h] at hfront; exact absurd hfront (by decide)
  have ht : ¬ choice.front = 't' := by rw [hfront]; decide
  unfold choiceStep
  rw [if_neg hc, if_neg hn, if_neg hp, if_neg ht, if_pos hfront]
  dsimp only
  rw [hitem]
  unfold delConversation
  simp [strTruthy, hcid]

/-- Witness for the amended C5 at a concrete page, choice `d1`,
declined confirmation. -/
theorem delete_choice_flow_witness :
    choiceStep 2 ⟨45, 20, 20, [("cid1", "Title 1")]⟩ "d1" false true =
      .deleteThenReprompt "cid1"
        (if ¬ false then .declined
         else if true then .deletedAndRunRestarted else .failed) :=
  delete_choice_flow 2 ⟨45, 20, 20, [("cid1", "Title 1")]⟩ "d1" false true
    "cid1" "Title 1" (by decide) (by decide) (by decide)

/-- C6 counterexample: an event whose error field is non-null but
empty (`error = ""`) is falsy for `if result['error']:`, so the
reconciliation does not abort — it processes the message and
overwrites the assistant prompt record and the conversation id. -/
theorem empty_error_event_not_aborted :
    printReplyStep sampleState 0 ⟨some "", some ⟨"Hi", false, "n1"⟩, some "c1"⟩
      = .ok ({ sampleState with
                conversation_id := some "c1"
                chatgpt_prompt := { prompt := some "Hi"
                                    parent_id := sampleState.user_prompt.message_id
                                    message_id := some "n1" } }, 2, "Hi") ∧
    ({ sampleState with
        conversation_id := some "c1"
        chatgpt_prompt := { prompt := some "Hi"
                            parent_id := sampleState.user_prompt.message_id
                            message_id := some "n1" } } : State).chatgpt_prompt
      ≠ sampleState.chatgpt_prompt := by
  exact ⟨rfl, by decide⟩

/-- C6 (amended): for every event whose error field is truthy
(non-null and non-empty), the reconciliation aborts at once with an
exception carrying that error's payload — before any assignment of
the iteration runs, so no session-state field (assistant prompt
record, conversation id) is produced or changed by the event; the
remaining events are not consumed either. -/
theorem truthy_error_aborts_without_mutation (st : State) (p : Nat)
    (e : ReplyEvent) (s : String) (hs : e.error = some s) (hne : s ≠ "") :
    printReplyStep st p e = .error s ∧
    ∀ rest, printReplyGo st p (e :: rest) = .error s := by
  have htr : strTruthy e.error = true := by simp [strTruthy, hs, hne]
  have hstep : printReplyStep st p e = .error s := by
    unfold printReplyStep
    rw [if_pos htr, hs]
    rfl
  refine ⟨hstep, fun rest => ?_⟩
  unfold printReplyGo
  rw [hstep]

/-- Witness for the amended C6 at a concrete event with error payload
`"boom"`. -/
theorem truthy_error_aborts_without_mutation_witness :
    printReplyStep sampleState 0 ⟨some "boom", none, none⟩ = .error "boom" :=
  (truthy_error_aborts_without_mutation sampleState 0
    ⟨some "boom", none, none⟩ "boom" rfl (by decide)).1

/-- C7: title-length validation boundary in
`__set_conversation_title`.  With an existing conversation id, a
requested title of length 65 or more is rejected (`len(new_title) >
64`) before the delegated call is made and the session title is
unchanged; a title of length exactly 64 is accepted and passed to the
delegated `set_conversation_title` call, and the session title is
updated exactly when that call succeeds. -/
theorem title_length_boundary (state : State) (new_title : String)
    (remoteOk : Bool) (hconv : strTruthy state.conversation_id = true) :
    (new_title.length ≥ 65 →
      setConversationTitle state new_title remoteOk
        = (state, false, .tooLong)) ∧
    (new_title.length = 64 →
      (setConversationTitle state new_title remoteOk).2.1 = true ∧
      (remoteOk = true →
        setConversationTitle state new_title remoteOk
          = ({ state with title := some new_title }, true, .success)) ∧
      (remoteOk = false →
        setConversationTitle state new_title remoteOk
          = (state, true, .failed))) := by
  unfold setConversationTitle
  rw [if_neg (by rw [hconv]; decide)]
  constructor
  · intro h65
    rw [if_pos (by omega)]
  · intro h64
    rw [if_neg (by omega)]
    refine ⟨?_, ?_, ?_⟩
    · cases remoteOk <;> simp
    · intro h; rw [h, if_pos rfl]
    · intro h; rw [h]; simp

/-- A session state with an existing conversation id, used by concrete
instantiations. -/
def sampleTitledState : State :=
  { title := some "Old title", conversation_id := some "conv-1"
    model_slug := some "gpt-4"
    user_prompt := ⟨some "hi", some "root-id", some "user-msg-id"⟩
    chatgpt_prompt := ⟨some "hello", some "user-msg-id", some "bot-msg-id"⟩ }

/-- Witness for C7: with an existing conversation id, the concrete
65-character title is rejected without a remote call, and the concrete
64-character title is accepted and persisted when the delegated call
succeeds. -/
theorem title_length_boundary_witness :
    setConversationTitle sampleTitledState "aaaaaaaaaaaaaaaaaaaaaaaaaaaaaaaaaaaaaaaaaaaaaaaaaaaaaaaaaaaaaaaaa" true
      = (sampleTitledState, false, .tooLong) ∧
    setConversationTitle sampleTitledState "bbbbbbbbbbbbbbbbbbbbbbbbbbbbbbbbbbbbbbbbbbbbbbbbbbbbbbbbbbbbbbbb" true
      = ({ sampleTitledState with title := some "bbbbbbbbbbbbbbbbbbbbbbbbbbbbbbbbbbbbbbbbbbbbbbbbbbbbbbbbbbbbbbbb" }, true, .success) :=
  ⟨(title_length_boundary sampleTitledState "aaaaaaaaaaaaaaaaaaaaaaaaaaaaaaaaaaaaaaaaaaaaaaaaaaaaaaaaaaaaaaaaa" true (by decide)).1
      (by decide),
    ((title_length_boundary sampleTitledState "bbbbbbbbbbbbbbbbbbbbbbbbbbbbbbbbbbbbbbbbbbbbbbbbbbbbbbbbbbbbbbbb" true (by decide)).2
      (by decide)).2.1 rfl⟩

/-- Accumulator-general form of the blank-line case of `__get_input`:
with every line before the first blank one non-empty and not starting
with `/`, the loop accumulates them all and the blank line returns the
newline-join of accumulator and lines. -/
theorem getInputGo_blank (pre : List String) :
    ∀ (acc rest : List String),
    (∀ l ∈ pre, l ≠ "" ∧ l.front ≠ '/') →
    getInputGo (pre ++ "" :: rest) acc
      = some (String.intercalate "\n" (acc ++ pre)) := by
  induction pre with
  | nil => intro acc rest h; simp [getInputGo]
  | cons l pre ih =>
    intro acc rest h
    obtain ⟨hne, hslash⟩ := h l (by simp)
    have hrec := ih (acc ++ [l]) rest (fun x hx => h x (by simp [hx]))
    simp only [List.cons_append, getInputGo, List.append_eq]
    rw [if_neg hne, if_neg hslash, hrec, List.append_assoc]
    rfl

/-- Accumulator-general form of the early-exit case of `__get_input`:
a line starting with `/` encountered before any blank line is returned
alone, discarding the accumulated lines. -/
theorem getInputGo_slash (pre : List String) :
    ∀ (acc rest : List String) (l : String),
    (∀ x ∈ pre, x ≠ "" ∧ x.front ≠ '/') →
    l ≠ "" → l.front = '/' →
    getInputGo (pre ++ l :: rest) acc = some l := by
  induction pre with
  | nil =>
    intro acc rest l _ hne hsl
    simp only [List.nil_append, getInputGo]
    rw [if_neg hne, if_pos hsl]
  | cons x pre ih =>
    intro acc rest l h hne hsl
    obtain ⟨hxne, hxslash⟩ := h x (by simp)
    simp only [List.cons_append, getInputGo, List.append_eq]
    rw [if_neg hxne, if_neg hxslash,
      ih (acc ++ [x]) rest l (fun y hy => h y (by simp [hy])) hne hsl]

/-- C9: input framing of `__get_input`.  (1) For console lines
consisting of non-empty, non-`/` lines followed by a blank line, the
logical unit is the newline-join of the accumulated lines; (2) a line
beginning with `/` encountered before the first blank line becomes
the unit by itself, discarding every previously accumulated line of
that unit; (3) in particular two non-empty lines followed by a blank
line yield the two lines joined by a single newline. -/
theorem input_framing :
    (∀ (pre rest : List String), (∀ l ∈ pre, l ≠ "" ∧ l.front ≠ '/') →
      getInput (pre ++ "" :: rest) = some (String.intercalate "\n" pre)) ∧
    (∀ (pre rest : List String) (l : String),
      (∀ x ∈ pre, x ≠ "" ∧ x.front ≠ '/') → l ≠ "" → l.front = '/' →
      getInput (pre ++ l :: rest) = some l) ∧
    getInput ["first line", "second line", ""]
      = some "first line\nsecond line" := by
  refine ⟨?_, ?_, rfl⟩
  · intro pre rest h
    unfold getInput
    rw [getInputGo_blank pre [] rest h]
    rfl
  · intro pre rest l h hne hsl
    exact getInputGo_slash pre [] rest l h hne hsl

/-- Witness for C9: the framing theorem applied to the concrete
console lines `["ab", "cd", ""]` and to `["ab", "/quit", "tail"]`. -/
theorem input_framing_witness :
    getInput ["ab", "cd", ""] = some (String.intercalate "\n" ["ab", "cd"]) ∧
    getInput ["ab", "/quit", "tail"] = some "/quit" :=
  ⟨input_framing.1 ["ab", "cd"] [] (by decide),
   input_framing.2.1 ["ab"] ["tail"] "/quit" (by decide) (by decide)
     (by decide)⟩

/-- C8: loading a conversation whose node chain is
`root -> A(user) -> B(assistant)` with `current_node = B` walks the
parent chain back to the root, reconstructs the history in forward
order `[A, B]`, and seeds the session's prompt records: `user_prompt`
from node A (text, parent, id), `chatgpt_prompt` from node B, with the
model slug taken from B's message metadata. -/
theorem load_conversation_chain (u0 a0 : ChatPrompt) (cid : Option String)
    (rootId aId bId tA tB slug titleC : String) (mroot : NodeMessage)
    (hcid : strTruthy cid = true)
    (hrb : rootId ≠ bId) (hab : aId ≠ bId) (hra : rootId ≠ aId)
    (ha : aId ≠ "") (hr : rootId ≠ "") :
    walkNodes [(rootId, ⟨none, rootId, mroot⟩),
               (aId, ⟨some rootId, aId, ⟨"user", tA, none⟩⟩),
               (bId, ⟨some aId, bId, ⟨"assistant", tB, some slug⟩⟩)] 3 bId []
      = some [⟨some rootId, aId, ⟨"user", tA, none⟩⟩,
              ⟨some aId, bId, ⟨"assistant", tB, some slug⟩⟩] ∧
    loadConversation u0 a0 cid
      ⟨titleC, bId, [(rootId, ⟨none, rootId, mroot⟩),
                     (aId, ⟨some rootId, aId, ⟨"user", tA, none⟩⟩),
                     (bId, ⟨some aId, bId, ⟨"assistant", tB, some slug⟩⟩)]⟩ 3
      = .loaded { title := some titleC, conversation_id := cid
                  model_slug := some slug
                  user_prompt := ⟨some tA, some rootId, some aId⟩
                  chatgpt_prompt := ⟨some tB, some aId, some bId⟩ } := by
  have hw : walkNodes [(rootId, ⟨none, rootId, mroot⟩),
               (aId, ⟨some rootId, aId, ⟨"user", tA, none⟩⟩),
               (bId, ⟨some aId, bId, ⟨"assistant", tB, some slug⟩⟩)] 3 bId []
      = some [⟨some rootId, aId, ⟨"user", tA, none⟩⟩,
              ⟨some aId, bId, ⟨"assistant", tB, some slug⟩⟩] := by
    simp [walkNodes, mappingLookup, List.find?, strTruthy, hrb, hab, hra,
      ha, hr]
  refine ⟨hw, ?_⟩
  unfold loadConversation
  rw [if_neg (by rw [hcid]; decide)]
  dsimp only
  rw [hw]
  dsimp only
  simp [replayNodes, replayNode]

/-- Witness for C8 at concrete node ids, texts and title. -/
theorem load_conversation_chain_witness :
    loadConversation ⟨none, some "g1", some "g2"⟩ ⟨none, some "g3", some "g4"⟩
      (some "conv-9")
      ⟨"My chat", "B", [("root", ⟨none, "root", ⟨"system", "", none⟩⟩),
                        ("A", ⟨some "root", "A", ⟨"user", "hi there", none⟩⟩),
                        ("B", ⟨some "A", "B",
                          ⟨"assistant", "hello!", some "gpt-4"⟩⟩)]⟩ 3
      = .loaded { title := some "My chat", conversation_id := some "conv-9"
                  model_slug := some "gpt-4"
                  user_prompt := ⟨some "hi there", some "root", some "A"⟩
                  chatgpt_prompt := ⟨some "hello!", some "A", some "B"⟩ } :=
  (load_conversation_chain ⟨none, some "g1", some "g2"⟩
    ⟨none, some "g3", some "g4"⟩ (some "conv-9") "root" "A" "B" "hi there"
    "hello!" "gpt-4" "My chat" ⟨"system", "", none⟩ (by decide) (by decide)
    (by decide) (by decide) (by decide) (by decide)).2

/-- Character count of a dropped string. -/
theorem string_length_drop (s : String) (n : Nat) :
    (s.drop n).length = s.length - n := by
  show (s.drop n).data.length = s.data.length - n
  simp

/-- Dropping zero characters is the identity. -/
theorem string_drop_zero (s : String) : s.drop 0 = s := by
  apply String.ext
  simp

/-- Unfolding of `String.join` on a cons. -/
theorem string_join_cons (s : String) (l : List String) :
    String.join (s :: l) = s ++ String.join l := by
  apply String.ext
  simp [String.data_append]

/-- Character count of an appended string. -/
theorem string_length_append (s t : String) :
    (s ++ t).length = s.length + t.length := by
  show (s ++ t).data.length = s.data.length + t.data.length
  rw [String.data_append, List.length_append]

/-- If `t` extends `s` (`t = s ++ u`) and `p ≤ s.length`, the suffix
of `s` past `p` followed by the suffix of `t` past `s.length` is the
suffix of `t` past `p`: newly emitted pieces concatenate to the final
suffix. -/
theorem drop_append_of_extends (s t u : String) (p : Nat)
    (ht : t = s ++ u) (hp : p ≤ s.length) :
    s.drop p ++ t.drop s.length = t.drop p := by
  apply String.ext
  rw [String.data_append]
  simp only [String.data_drop]
  subst ht
  have hlen : String.length s = s.data.length := rfl
  rw [String.data_append, hlen, List.drop_append_of_le_length hp,
    List.drop_left]

/-- Main run lemma for `__print_reply` on an error-free,
message-carrying event sequence whose cumulative contents form a
prefix chain: the run succeeds, the final cursor is the final
content's length, the emitted suffixes concatenate to the final
content's suffix past the starting cursor, the user prompt record is
untouched, and the assistant prompt record holds the final content,
the user prompt's id as parent, and the final node id. -/
theorem printReplyGo_chain_run (events : List ReplyEvent) :
    ∀ (msgs : List ReplyMessage) (st : State) (p : Nat)
      (m1 : ReplyMessage) (rest : List ReplyMessage),
    msgs = m1 :: rest →
    events.map ReplyEvent.message = msgs.map some →
    (∀ e ∈ events, e.error = none) →
    msgs.Chain' (fun a b => ∃ u, b.part0 = a.part0 ++ u) →
    p ≤ m1.part0.length →
    ∃ st' texts mlast u,
      printReplyGo st p events = .ok (st', mlast.part0.length, texts) ∧
      msgs.getLast? = some mlast ∧
      mlast.part0 = m1.part0 ++ u ∧
      String.join texts = mlast.part0.drop p ∧
      st'.user_prompt = st.user_prompt ∧
      st'.chatgpt_prompt
        = ⟨some mlast.part0, st.user_prompt.message_id, some mlast.id⟩ := by
  induction events with
  | nil =>
    intro msgs st p m1 rest hmsgs hmap herr hchain hp
    rw [hmsgs] at hmap
    exact absurd hmap (by simp)
  | cons e es ih =>
    intro msgs st p m1 rest hmsgs hmap herr hchain hp
    subst hmsgs
    simp only [List.map_cons] at hmap
    injection hmap with hm hmap2
    have herr_e : e.error = none := herr e (by simp)
    have hstep : printReplyStep st p e
        = .ok ({ st with
                  conversation_id := e.conversation_id
                  chatgpt_prompt := ⟨some m1.part0,
                    st.user_prompt.message_id, some m1.id⟩ },
               p + (m1.part0.drop p).length, m1.part0.drop p) := by
      unfold printReplyStep
      rw [herr_e, hm]
      rfl
    have hpl : p + (m1.part0.drop p).length = m1.part0.length := by
      rw [string_length_drop]; omega
    cases rest with
    | nil =>
      have hes : es = [] := by
        rw [List.map_nil] at hmap2
        exact List.map_eq_nil_iff.mp hmap2
      subst hes
      refine ⟨{ st with
                  conversation_id := e.conversation_id
                  chatgpt_prompt := ⟨some m1.part0,
                    st.user_prompt.message_id, some m1.id⟩ },
        [m1.part0.drop p], m1, "", ?_, by simp, by
          apply String.ext; simp [String.data_append], ?_, rfl, rfl⟩
      · unfold printReplyGo
        rw [hstep]
        dsimp only
        unfold printReplyGo
        dsimp only
        rw [hpl]
      · rw [string_join_cons]
        apply String.ext
        simp [String.data_append, String.join]
    | cons m2 rest2 =>
      cases es with
      | nil => rw [List.map_cons] at hmap2; exact absurd hmap2 (by simp)
      | cons e2 es2 =>
        obtain ⟨⟨u1, hu1⟩, hchain2⟩ := List.chain'_cons.mp hchain
        have hlen12 : m1.part0.length ≤ m2.part0.length := by
          rw [hu1, string_length_append]; omega
        obtain ⟨st', texts, mlast, u2, hrun, hlast, hext, hjoin, hup, hcp⟩ :=
          ih (m2 :: rest2)
            { st with
                conversation_id := e.conversation_id
                chatgpt_prompt := ⟨some m1.part0,
                  st.user_prompt.message_id, some m1.id⟩ }
            m1.part0.length m2 rest2 rfl hmap2
            (fun x hx => herr x (by simp [hx])) hchain2 hlen12
        refine ⟨st', (m1.part0.drop p) :: texts, mlast, u1 ++ u2,
          ?_, by simpa using hlast, ?_, ?_, hup, hcp⟩
        · unfold printReplyGo
          rw [hstep]
          dsimp only
          rw [hpl, hrun]
        · rw [hext, hu1, String.append_assoc]
        · rw [string_join_cons, hjoin]
          exact drop_append_of_extends m1.part0 mlast.part0 (u1 ++ u2) p
            (by rw [hext, hu1, String.append_assoc]) hp

/-- C10: for every error-free, message-carrying event sequence whose
cumulative contents extend each other as prefixes, the concatenation
of all emitted suffixes equals the final event's full content, and
after the sequence the assistant prompt record's text is that final
content, its parent id is the user prompt record's own id, and its
own id is the final event's node id. -/
theorem reconciliation_concat_equals_final (st : State)
    (events : List ReplyEvent) (msgs : List ReplyMessage)
    (m1 : ReplyMessage) (rest : List ReplyMessage)
    (hmsgs : msgs = m1 :: rest)
    (hmap : events.map ReplyEvent.message = msgs.map some)
    (herr : ∀ e ∈ events, e.error = none)
    (hchain : msgs.Chain' (fun a b => ∃ u, b.part0 = a.part0 ++ u)) :
    ∃ st' texts mlast,
      printReply st events = .ok (st', mlast.part0.length, texts) ∧
      msgs.getLast? = some mlast ∧
      String.join texts = mlast.part0 ∧
      st'.chatgpt_prompt.prompt = some mlast.part0 ∧
      st'.chatgpt_prompt.parent_id = st.user_prompt.message_id ∧
      st'.chatgpt_prompt.message_id = some mlast.id := by
  obtain ⟨st', texts, mlast, u, hrun, hlast, hext, hjoin, hup, hcp⟩ :=
    printReplyGo_chain_run events msgs st 0 m1 rest hmsgs hmap herr hchain
      (Nat.zero_le _)
  refine ⟨st', texts, mlast, hrun, hlast, ?_, ?_, ?_, ?_⟩
  · rw [hjoin, string_drop_zero]
  · rw [hcp]
  · rw [hcp]
  · rw [hcp]

/-- Witness for C10: the two-event sequence with cumulative contents
`"Hello"` then `"Hello, world"` satisfies all hypotheses, so the
emitted suffixes concatenate to `"Hello, world"` and the assistant
prompt record ends holding the final content and node id. -/
theorem reconciliation_concat_equals_final_witness :
    ∃ st' texts mlast,
      printReply sampleState
        [⟨none, some ⟨"Hello", false, "na"⟩, some "c1"⟩,
         ⟨none, some ⟨"Hello, world", true, "nb"⟩, some "c1"⟩]
        = .ok (st', mlast.part0.length, texts) ∧
      ([⟨"Hello", false, "na"⟩, ⟨"Hello, world", true, "nb"⟩]
          : List ReplyMessage).getLast? = some mlast ∧
      String.join texts = mlast.part0 ∧
      st'.chatgpt_prompt.prompt = some mlast.part0 ∧
      st'.chatgpt_prompt.parent_id = sampleState.user_prompt.message_id ∧
      st'.chatgpt_prompt.message_id = some mlast.id :=
  reconciliation_concat_equals_final sampleState
    [⟨none, some ⟨"Hello", false, "na"⟩, some "c1"⟩,
     ⟨none, some ⟨"Hello, world", true, "nb"⟩, some "c1"⟩]
    [⟨"Hello", false, "na"⟩, ⟨"Hello, world", true, "nb"⟩]
    ⟨"Hello", false, "na"⟩ [⟨"Hello, world", true, "nb"⟩] rfl rfl
    (by intro e he; fin_cases he <;> rfl)
    (List.chain'_cons.mpr ⟨⟨", world", rfl⟩, List.chain'_singleton _⟩)
